import Mathlib

/-!
Shallow embedding of the `Result<T, E>` library in `src/mod.ts` (a Rust-style
success/failure container for TypeScript) and proofs about its operations.

Modelling conventions:
* The tagged union `Result<T, E> = Ok<T> | Err<E>` becomes a Lean inductive
  with constructors `Ok` and `Err`; the class of the container carries the
  variant tag, exactly as in the source.
* JavaScript `undefined`/`null` payload distinctions (used by `transpose` and
  by the payload-free constructors) are modelled by a small universe `JSVal`
  of JavaScript primitive values.
* Methods that `throw new Error(msg)` are modelled as functions into
  `Except String`, the thrown message carried in the `error` branch.
* The hand-written iterator returned by `Symbol.iterator` is modelled by an
  explicit-state `next` function plus a fuelled drain implementing the
  semantics of the spread operator.
* `Result.fromIter`'s loop with its mutable `oks` array becomes a
  tail-recursive helper whose accumulator grows by appending, mirroring
  `oks.push(res.ok)`.
-/

/-- JavaScript primitive values, enough to distinguish `undefined`, `null`
and ordinary present values as `Ok.transpose` in `src/mod.ts` does. -/
inductive JSVal where
  | undef
  | nullv
  | boolean (b : Bool)
  | number (n : Int)
  | str (s : String)
  deriving DecidableEq, Repr

/-- Mirrors the JavaScript test `v === undefined || v === null` used by
`Ok.transpose` in `src/mod.ts` (line 214). -/
def JSVal.isNullish (v : JSVal) : Bool :=
  v == JSVal.undef || v == JSVal.nullv

/-- The tagged union `Result<T, E> = Result.Ok<T> | Result.Err<E>` of
`src/mod.ts` (line 1300). The constructors are the class constructors
`new Ok(ok)` (line 79) and `new Err(err)` (line 278); neither performs any
runtime check on its payload. -/
inductive Result (T E : Type) where
  | Ok (ok : T)
  | Err (err : E)
  deriving DecidableEq, Repr

namespace Result

/-- `Ok.isOk` returns `true` (line 95); `Err.isOk` returns `false` (line 289). -/
def isOk : Result T E → Bool
  | .Ok _ => true
  | .Err _ => false

/-- `Ok.isErr` returns `false` (line 109); `Err.isErr` returns `true` (line 301). -/
def isErr : Result T E → Bool
  | .Ok _ => false
  | .Err _ => true

/-- `Ok.map(fn)` returns `new Ok(fn(this.ok))` (line 121); `Err.map()` returns
`this` (line 315). -/
def map (f : T → U) : Result T E → Result U E
  | .Ok v => .Ok (f v)
  | .Err e => .Err e

/-- `Ok.and(res)` returns `res` (line 187); `Err.and()` returns `this`
(line 381), never looking at its argument. -/
def and : Result T E → Result U E → Result U E
  | .Ok _, res => res
  | .Err e, _ => .Err e

/-- `Ok.or()` returns `this` (line 201), never looking at its argument;
`Err.or(res)` returns `res` (line 393). -/
def or : Result T E → Result T F → Result T F
  | .Ok v, _ => .Ok v
  | .Err _, res => res

/-- `Ok.unwrap` returns `this.ok` (line 167); `Err.unwrap` throws
`Error("unwrap called on an Err value")` (line 361). -/
def unwrap : Result T E → Except String T
  | .Ok v => .ok v
  | .Err _ => .error ("unwrap called on an Err value")

/-- `Err.unwrapErr` returns `this.err` (line 377); `Ok.unwrapErr` throws
`Error("unwrapErr called on an Ok value")` (line 183). -/
def unwrapErr : Result T E → Except String E
  | .Ok _ => .error ("unwrapErr called on an Ok value")
  | .Err e => .ok e

/-- `Ok.expect()` returns `this.ok` ignoring the message (line 163);
`Err.expect(msg)` throws an error whose message interpolates
`msg + ": expect called on an Err value"` (line 357). -/
def expect (msg : String) : Result T E → Except String T
  | .Ok v => .ok v
  | .Err _ => .error (msg ++ ": expect called on an Err value")

/-- `Err.expectErr()` returns `this.err` ignoring the message (line 373);
`Ok.expectErr(msg)` throws an error whose message interpolates
`msg + ": expectErr called on an Ok value"` (line 179). -/
def expectErr (msg : String) : Result T E → Except String E
  | .Ok _ => .error (msg ++ ": expectErr called on an Ok value")
  | .Err e => .ok e

/-- `Ok.clone` returns `new Ok(this.ok)` (line 223); `Err.clone` returns
`new Err(this.err)` (line 415) — same variant, same payload, fresh container. -/
def clone : Result T E → Result T E
  | .Ok v => .Ok v
  | .Err e => .Err e

/-- `Ok.transpose` (line 213): if `this.ok === undefined || this.ok === null`
return `undefined`, otherwise return `new Ok(this.ok)`; `Err.transpose`
returns `this` (line 407). The union return type
`Result<NonNullable<T>, E> | undefined` is modelled by `Option`, with `none`
standing for the absent marker `undefined`. -/
def transpose : Result JSVal E → Option (Result JSVal E)
  | .Ok v => if v.isNullish then none else some (.Ok v)
  | .Err e => some (.Err e)

end Result

/-- One call to a JavaScript iterator's `next()` yields an object with a
`value` (possibly `undefined`, modelled by `none`) and a `done` flag (absent
means falsy, modelled by `false`). -/
structure IterRes (T : Type) where
  value : Option T
  done : Bool
  deriving DecidableEq, Repr

namespace Result

/-- The iterators returned by `Symbol.iterator`. `Ok`'s iterator (line 81)
closes over a mutable flag `ran`, initially `false`: the first `next()` sets
`ran` and yields `{ value: this.ok }` (no `done` field, hence falsy); every
later `next()` yields `{ value: undefined, done: true }`. `Err`'s iterator
(line 280) is stateless: `next()` always yields `{ value: undefined,
done: true }`. Both are modelled as a step function on the `ran` flag. -/
def iterNext : Result T E → Bool → IterRes T × Bool
  | .Ok v, ran =>
    if ran then (⟨none, true⟩, ran) else (⟨some v, false⟩, true)
  | .Err _, s => (⟨none, true⟩, s)

/-- The spread operator's loop: call `next` until `done` is truthy, collecting
each yielded `value`; `fuel` bounds the number of calls so the drain is total. -/
def spreadAux (next : σ → IterRes T × σ) : Nat → σ → List T
  | 0, _ => []
  | fuel + 1, s =>
    let p := next s
    if p.1.done then [] else p.1.value.toList ++ spreadAux next fuel p.2

/-- `[...r]`: drain a fresh iterator instance, whose `ran` flag starts `false`. -/
def spread (r : Result T E) (fuel : Nat) : List T :=
  spreadAux r.iterNext fuel false

/-- The loop body of `Result.fromIter` (line 37): the accumulator `oks`
models the mutable array, `oks.push(res.ok)` becomes appending one element;
on the first `Err` the loop returns that `Err` without touching the rest. -/
def fromIterGo (oks : List T) : List (Result T E) → Result (List T) E
  | [] => .Ok oks
  | res :: rest =>
    match res with
    | .Err e => .Err e
    | .Ok v => fromIterGo (oks ++ [v]) rest

/-- `Result.fromIter(results)` (line 37): start with the empty array `oks`. -/
def fromIter (results : List (Result T E)) : Result (List T) E :=
  fromIterGo [] results

end Result

/-- Helper: running the `fromIter` loop over failure-free input appends every
payload, in order, to the accumulator. -/
theorem fromIterGo_all_ok {T E : Type} (vs : List T) :
    ∀ oks : List T,
      Result.fromIterGo oks (vs.map (Result.Ok (E := E))) = .Ok (oks ++ vs) := by
  induction vs with
  | nil => intro oks; simp [Result.fromIterGo]
  | cons v vs ih =>
    intro oks
    simp only [List.map_cons, Result.fromIterGo, ih]
    simp

/-- Helper: the `fromIter` loop stops at the first failure, and the elements
after it do not influence the outcome. -/
theorem fromIterGo_first_err {T E : Type} (vs : List T) :
    ∀ (oks : List T) (e : E) (rest : List (Result T E)),
      Result.fromIterGo oks (vs.map (Result.Ok (E := E)) ++ Result.Err e :: rest)
        = .Err e := by
  induction vs with
  | nil => intro oks e rest; simp [Result.fromIterGo]
  | cons v vs ih =>
    intro oks e rest
    simp only [List.map_cons, List.cons_append, Result.fromIterGo]
    exact ih (oks ++ [v]) e rest

/-- C1: `Result.fromIter` iterates its input in order: the empty input yields
`Ok` of the empty list; an all-`Ok` input yields `Ok` of the payloads in input
order; and an input whose first failure is `Err e` yields `Err e` whatever
comes after it — the elements past the first failure never affect the result,
the loop having returned before consuming them. -/
theorem fromIter_spec : ∀ (T E : Type),
    Result.fromIter ([] : List (Result T E)) = .Ok []
    ∧ (∀ vs : List T, Result.fromIter (vs.map (Result.Ok (E := E))) = .Ok vs)
    ∧ (∀ (vs : List T) (e : E) (rest : List (Result T E)),
        Result.fromIter (vs.map (Result.Ok (E := E)) ++ Result.Err e :: rest)
          = .Err e) := by
  intro T E
  refine ⟨rfl, ?_, ?_⟩
  · intro vs
    simpa using fromIterGo_all_ok (E := E) vs []
  · intro vs e rest
    exact fromIterGo_first_err vs [] e rest

/-- C2: `unwrap` on an `Ok` returns the payload and `unwrapErr` on an `Ok`
throws (the `IllegalExtraction` condition, surfaced as a thrown `Error`);
symmetrically `unwrapErr` on an `Err` returns the error payload and `unwrap`
on an `Err` throws. -/
theorem unwrap_unwrapErr_spec : ∀ (T E : Type) (v : T) (e : E),
    (Result.Ok (E := E) v).unwrap = Except.ok v
    ∧ (Result.Ok (E := E) v).unwrapErr
        = Except.error ("unwrapErr called on an Ok value")
    ∧ (Result.Err (T := T) e).unwrapErr = Except.ok e
    ∧ (Result.Err (T := T) e).unwrap
        = Except.error ("unwrap called on an Err value") :=
  fun _ _ _ _ => ⟨rfl, rfl, rfl, rfl⟩

/-- C3: `Ok.and(other)` returns `other` and `Ok.or(other)` returns the `Ok`
itself; `Err.and(other)` returns the `Err` itself — its definition never
inspects the argument — and `Err.or(other)` returns `other`. -/
theorem and_or_spec : ∀ (T U E F : Type) (v : T) (e : E)
    (oa : Result U E) (ob : Result T F),
    (Result.Ok (E := E) v).and oa = oa
    ∧ (Result.Ok (E := E) v).or ob = Result.Ok v
    ∧ (Result.Err (T := T) e).and oa = Result.Err e
    ∧ (Result.Err (T := T) e).or ob = ob :=
  fun _ _ _ _ _ _ _ _ => ⟨rfl, rfl, rfl, rfl⟩

/-- C4: the functor law — mapping `f` then `g` over an `Ok` equals mapping
their composition — and `map` is the identity on the `Err` channel. -/
theorem map_functor_spec : ∀ (T U W E : Type) (v : T) (e : E)
    (f : T → U) (g : U → W),
    ((Result.Ok (E := E) v).map f).map g
      = (Result.Ok (E := E) v).map (fun x => g (f x))
    ∧ (Result.Err (T := T) e).map f = Result.Err e :=
  fun _ _ _ _ _ _ _ _ => ⟨rfl, rfl⟩

/-- C5: on an `Ok`, `transpose` returns the absent marker exactly when the
payload is itself absent — in particular `Ok(undefined)` transposes to
`undefined` — and otherwise returns an `Ok` wrapping the present payload; on
an `Err`, `transpose` returns the value unchanged whatever its payload. (The
implementation's absence test is `=== undefined || === null`.) -/
theorem transpose_spec : ∀ (E : Type) (e : E) (v : JSVal),
    Result.transpose (Result.Ok (E := E) JSVal.undef) = none
    ∧ (v.isNullish = true → Result.transpose (Result.Ok (E := E) v) = none)
    ∧ (v.isNullish = false →
        Result.transpose (Result.Ok (E := E) v) = some (Result.Ok v))
    ∧ Result.transpose (Result.Err (T := JSVal) e) = some (Result.Err e) := by
  intro E e v
  refine ⟨rfl, fun h => ?_, fun h => ?_, rfl⟩
  · simp [Result.transpose, h]
  · simp [Result.transpose, h]

/-- Witness for C5 at the concrete present payload `1` and the payload
`undefined`. -/
theorem transpose_spec_witness :
    Result.transpose (Result.Ok (E := JSVal) (JSVal.number 1))
      = some (Result.Ok (JSVal.number 1))
    ∧ Result.transpose (Result.Ok (E := JSVal) JSVal.undef) = none :=
  ⟨(transpose_spec JSVal JSVal.undef (JSVal.number 1)).2.2.1 (by decide),
   (transpose_spec JSVal JSVal.undef (JSVal.number 1)).1⟩

/-- C6: spreading an `Ok` yields exactly its one payload — the first `next()`
yields the payload, every later `next()` on the same iterator instance
reports exhaustion — and spreading an `Err` yields the empty list for any
amount of fuel. Each instance's exhaustion state is its own `ran` flag,
passed explicitly, so distinct instances are independent by construction. -/
theorem iterator_spec : ∀ (T E : Type) (v : T) (e : E) (n fuel : Nat),
    (Result.Ok (E := E) v).spread (n + 2) = [v]
    ∧ (Result.Err (T := T) e).spread fuel = ([] : List T)
    ∧ (Result.Ok (E := E) v).iterNext true = (⟨none, true⟩, true) := by
  intro T E v e n fuel
  refine ⟨?_, ?_, rfl⟩
  · simp [Result.spread, Result.spreadAux, Result.iterNext]
  · cases fuel with
    | zero => rfl
    | succ m => simp [Result.spread, Result.spreadAux, Result.iterNext]

/-- C7: the message-taking extractors raise with the caller-supplied text as
a prefix of the raised message — the message is exactly the caller text
followed by the separator and a fixed description — while `unwrap` and
`unwrapErr` raise with the fixed description alone. -/
theorem expect_message_spec : ∀ (T E : Type) (v : T) (e : E) (msg : String),
    (Result.Err (T := T) e).expect msg
      = Except.error (msg ++ ": expect called on an Err value")
    ∧ (Result.Ok (E := E) v).expectErr msg
        = Except.error (msg ++ ": expectErr called on an Ok value")
    ∧ (Result.Err (T := T) e).unwrap
        = Except.error ("unwrap called on an Err value")
    ∧ (Result.Ok (E := E) v).unwrapErr
        = Except.error ("unwrapErr called on an Ok value") :=
  fun _ _ _ _ _ => ⟨rfl, rfl, rfl, rfl⟩

/-- C8: `clone` returns a value-equal result — same variant, identical
payload — for both variants and every payload. -/
theorem clone_spec : ∀ (T E : Type) (r : Result T E), r.clone = r := by
  intro T E r
  cases r <;> rfl

/-- C9: the implementation treats a present-but-`null` payload exactly like a
missing one — `Ok(null)` transposes to the absent marker, resolving the
spec's open question in favour of nullish absence. -/
theorem transpose_null_spec : ∀ (E : Type),
    Result.transpose (Result.Ok (E := E) JSVal.nullv) = none := by
  intro E
  simp [Result.transpose, JSVal.isNullish]

/-- C10: constructing either variant with an `undefined` payload is accepted
— the constructors are total, with no runtime payload check — and the variant
tag stays correct, because the tag is the constructor (the concrete class)
and not the presence of the `ok`/`err` fields. -/
theorem undef_payload_spec :
    (Result.Ok (E := JSVal) JSVal.undef).isOk = true
    ∧ (Result.Ok (E := JSVal) JSVal.undef).isErr = false
    ∧ (Result.Err (T := JSVal) JSVal.undef).isErr = true
    ∧ (Result.Err (T := JSVal) JSVal.undef).isOk = false :=
  ⟨rfl, rfl, rfl, rfl⟩
